import Mathlib

/-!
Verification of the WayForge frontend authentication core: the persisted
auth-state store (`src/store/authStore.ts`) and the route guard component
(`AuthGuard`).  Each definition is a shallow embedding of the corresponding
TypeScript source.  JavaScript string truthiness (`token ? a : b`,
`x || y`) is modelled explicitly: a `string | null` value is falsy exactly
when it is `null` or the empty string.
-/

namespace WayForge

/-- User record, from the `User` interface in `src/store/authStore.ts`
(`id` and `email` required; `name`, `avatar`, `role` optional). -/
structure User where
  id : String
  email : String
  name : Option String
  avatar : Option String
  role : Option String
deriving DecidableEq, Repr

/-- The store's state fields, from the `AuthState` type in
`src/store/authStore.ts` (`token: string | null`, `user: User | null`,
`isAuthenticated: boolean`, `isLoading: boolean`, `error: string | null`). -/
structure AuthState where
  token : Option String
  user : Option User
  isAuthenticated : Bool
  isLoading : Bool
  error : Option String
deriving DecidableEq, Repr

/-- Truthiness of a JavaScript `string | null` value: falsy when `null`
or the empty string. -/
def strTruthy : Option String → Bool
  | none => false
  | some t => !t.isEmpty

/-- Initial store state (`authStore.ts` lines 50-54): everything
empty / false. -/
def initialState : AuthState :=
  { token := none, user := none, isAuthenticated := false,
    isLoading := false, error := none }

/-- `setToken(token)` (`authStore.ts` lines 57-64): one `set` call storing
the token, `isAuthenticated: true`, `error: null`. -/
def setToken (s : AuthState) (token : String) : AuthState :=
  { s with token := some token, isAuthenticated := true, error := none }

/-- `setUser(user)` (`authStore.ts` lines 66-72): one `set` call storing
only the user. -/
def setUser (s : AuthState) (user : User) : AuthState :=
  { s with user := some user }

/-- `setError(error)` (`authStore.ts` lines 74-77): one `set` call storing
the error and `isLoading: false`. -/
def setError (s : AuthState) (error : Option String) : AuthState :=
  { s with error := error, isLoading := false }

/-- `setLoading(isLoading)` (`authStore.ts` lines 79-81): one `set` call
storing only the flag. -/
def setLoading (s : AuthState) (isLoading : Bool) : AuthState :=
  { s with isLoading := isLoading }

/-- `clearAuth()` (`authStore.ts` lines 87-96): one `set` call resetting
all five fields. -/
def clearAuth (_s : AuthState) : AuthState :=
  { token := none, user := none, isAuthenticated := false,
    isLoading := false, error := none }

/-- `getAuthHeader()` (`authStore.ts` lines 102-105): the conditional
expression returning the template literal prefixing the token with
"Bearer " when `token` is truthy, and `null` otherwise; JS truthiness on
the token string means the empty string counts as absent. -/
def getAuthHeader (s : AuthState) : Option String :=
  match s.token with
  | some t => if t.isEmpty then none else some ("Bearer " ++ t)
  | none => none

/-- The persisted subset, from the `partialize` option
(`authStore.ts` lines 115-119): only `token`, `user`, `isAuthenticated`
are written to storage. -/
structure PersistedAuth where
  token : Option String
  user : Option User
  isAuthenticated : Bool
deriving DecidableEq, Repr

/-- The `partialize` projection (`authStore.ts` lines 115-119). -/
def persistSubset (s : AuthState) : PersistedAuth :=
  { token := s.token, user := s.user, isAuthenticated := s.isAuthenticated }

/-- Rehydration: the persist middleware merges the persisted subset into
the current (startup) state, then the `onRehydrateStorage` callback
(`authStore.ts` lines 125-133) runs the repair
`if (state.token && !state.isAuthenticated) state.isAuthenticated = true`,
where `state.token` is tested with JS truthiness. -/
def rehydrate (current : AuthState) (p : PersistedAuth) : AuthState :=
  let merged : AuthState :=
    { current with token := p.token, user := p.user,
                   isAuthenticated := p.isAuthenticated }
  if strTruthy merged.token && !merged.isAuthenticated then
    { merged with isAuthenticated := true }
  else
    merged

/-- Local part of an email before the first `@`, modelling the source's
`email.split("@")[0]` in `authSelectors.userDisplayName`. -/
def emailLocalPart (email : String) : String :=
  String.mk (email.data.takeWhile (fun c => c != '@'))

/-- `authSelectors.userDisplayName` (`authStore.ts` lines 154-155):
`state.user?.name || state.user?.email?.split("@")[0] || "User"`, with
JS `||` short-circuiting on falsy (absent or empty) strings. -/
def userDisplayName (s : AuthState) : String :=
  match s.user with
  | none => "User"
  | some u =>
      let n := u.name.getD ""
      if !n.isEmpty then n
      else
        let lp := emailLocalPart u.email
        if !lp.isEmpty then lp else "User"

/-- States reachable from the empty initial session through the store's
own operations, plus the rehydration step applied to a persisted subset
the store itself wrote (the `partialize` image of a reachable state). -/
inductive Reachable : AuthState → Prop where
  | init : Reachable initialState
  | tok : ∀ {s} (t : String), Reachable s → Reachable (setToken s t)
  | usr : ∀ {s} (u : User), Reachable s → Reachable (setUser s u)
  | err : ∀ {s} (e : Option String), Reachable s → Reachable (setError s e)
  | load : ∀ {s} (b : Bool), Reachable s → Reachable (setLoading s b)
  | clear : ∀ {s}, Reachable s → Reachable (clearAuth s)
  | rehyd : ∀ {s s'}, Reachable s → Reachable s' →
      Reachable (rehydrate s' (persistSubset s))

/-- What the AuthGuard component renders in one evaluation
(`src/unnamed/part_002`): the loading placeholder, the supplied fallback,
nothing (while redirecting), or the protected children. -/
inductive GuardRender (α : Type) where
  | loading
  | fallback (a : α)
  | nothing
  | children (a : α)
deriving DecidableEq, Repr

/-- Outcome of one AuthGuard evaluation: the redirect issued by the
`useEffect` (if any) and what the render body returns. -/
structure GuardEval (α : Type) where
  redirect : Option String
  render : GuardRender α
deriving DecidableEq, Repr

/-- Default redirect target, from the `redirectTo = "/auth/login"` prop
default in `src/unnamed/part_002`. -/
def defaultRedirect : String := "/auth/login"

/-- One AuthGuard evaluation (`src/unnamed/part_002`).  The `useEffect`
(lines 49-57) returns early when `isLoading`, else calls
`router.replace(redirectTo)` whenever `!isAuthenticated || !token`
(JS truthiness on `token`), independently of `fallback`.  The render body
(lines 62-90) shows the loading placeholder when `isLoading`, else the
fallback (or nothing) when `!isAuthenticated || !token`, else the
children. -/
def authGuardEval (α : Type) (isAuthenticated isLoading : Bool)
    (token : Option String) (fallback : Option α) (children : α)
    (redirectTo : Option String) : GuardEval α :=
  let target := redirectTo.getD defaultRedirect
  let redirect : Option String :=
    if isLoading then none
    else if !isAuthenticated || !strTruthy token then some target
    else none
  let render : GuardRender α :=
    if isLoading then GuardRender.loading
    else if !isAuthenticated || !strTruthy token then
      match fallback with
      | some fb => GuardRender.fallback fb
      | none => GuardRender.nothing
    else GuardRender.children children
  { redirect := redirect, render := render }

end WayForge

namespace WayForge

/-- Claim C1: for every non-empty token string t and every store state,
setToken yields a state whose token is t, whose isAuthenticated is true,
and whose error is absent, in one update. -/
theorem setToken_authenticates (s : AuthState) (t : String) (ht : t ≠ "") :
    (setToken s t).token = some t ∧
    (setToken s t).isAuthenticated = true ∧
    (setToken s t).error = none :=
  ⟨rfl, rfl, rfl⟩

/-- Witness for C1 at the concrete token "abc" and the initial state. -/
theorem setToken_authenticates_witness :
    ("abc" : String) ≠ "" ∧
    ((setToken initialState "abc").token = some "abc" ∧
     (setToken initialState "abc").isAuthenticated = true ∧
     (setToken initialState "abc").error = none) :=
  ⟨by decide, setToken_authenticates initialState "abc" (by decide)⟩

/-- Claim C2: in every state reachable from the empty initial session
through the store's own operations and the rehydration step,
isAuthenticated = true implies the token is present. -/
theorem reachable_isAuthenticated_token (s : AuthState) (h : Reachable s) :
    s.isAuthenticated = true → s.token.isSome = true := by
  induction h with
  | init => intro hc; cases hc
  | tok t _ _ => intro _; rfl
  | usr u _ ih => exact ih
  | err e _ ih => exact ih
  | load b _ ih => exact ih
  | clear _ _ => intro hc; cases hc
  | @rehyd sp sc _ _ ihp _ =>
      simp only [rehydrate, persistSubset]
      by_cases hcond : (strTruthy sp.token && !sp.isAuthenticated) = true
      · rw [if_pos hcond]
        intro _
        have h1 : strTruthy sp.token = true := by
          have h2 := hcond
          simp only [Bool.and_eq_true] at h2
          exact h2.1
        cases htok : sp.token with
        | none => rw [htok] at h1; exact absurd h1 (by simp [strTruthy])
        | some t => simp
      · rw [if_neg hcond]
        exact ihp

/-- Witness for C2 at the concrete reachable state setToken initial
"abc". -/
theorem reachable_isAuthenticated_token_witness :
    (setToken initialState "abc").token.isSome = true :=
  reachable_isAuthenticated_token _ (Reachable.tok "abc" Reachable.init) rfl

end WayForge

namespace WayForge

/-- Counterexample for C3: with isLoading = false, isAuthenticated = false
and a fallback supplied, the guard renders the fallback but still issues
the redirect (the effect ignores the fallback prop), contradicting the
claim that no redirect is issued in that case. -/
theorem authGuard_fallback_still_redirects :
    (authGuardEval String false false none (some "FB") "CH" none).render
        = GuardRender.fallback "FB" ∧
    (authGuardEval String false false none (some "FB") "CH" none).redirect
        = some "/auth/login" := by
  decide

/-- Claim C3 (amended): for every AuthGuard evaluation with
isLoading = false and isAuthenticated = false, the guard issues exactly
one redirect to the configured target (default target when none given)
whether or not a fallback was supplied; it renders the fallback when one
was supplied and nothing otherwise. -/
theorem authGuard_unauthenticated (α : Type) (token : Option String)
    (fallback : Option α) (children : α) (redirectTo : Option String) :
    (authGuardEval α false false token fallback children redirectTo).redirect
        = some (redirectTo.getD defaultRedirect) ∧
    (authGuardEval α false false token fallback children redirectTo).render
        = (match fallback with
           | some fb => GuardRender.fallback fb
           | none => GuardRender.nothing) := by
  cases fallback <;> simp [authGuardEval]

/-- Claim C4: the AuthGuard never issues a redirect while isLoading is
true; it renders the loading placeholder regardless of isAuthenticated,
token, fallback and target. -/
theorem authGuard_loading_suppresses_redirect (α : Type)
    (isAuthenticated : Bool) (token : Option String) (fallback : Option α)
    (children : α) (redirectTo : Option String) :
    (authGuardEval α isAuthenticated true token fallback children
        redirectTo).redirect = none ∧
    (authGuardEval α isAuthenticated true token fallback children
        redirectTo).render = GuardRender.loading :=
  ⟨rfl, rfl⟩

/-- Counterexample for C5: the persisted record with present token ""
and isAuthenticated = false is not repaired by rehydration (the repair
tests the token with JS truthiness, so the empty string does not count),
contradicting the claim for every record with a present token. -/
theorem rehydrate_empty_token_not_repaired :
    (PersistedAuth.token ⟨some "", none, false⟩).isSome = true ∧
    (rehydrate initialState ⟨some "", none, false⟩).isAuthenticated
        = false := by
  decide

/-- Claim C5 (amended): for every persisted record with a present
non-empty token and isAuthenticated = false, the rehydration step forces
isAuthenticated = true in the restored state; in particular rehydrating
the record with token "t" and isAuthenticated = false yields true. -/
theorem rehydrate_repairs_nonempty_token (current : AuthState)
    (p : PersistedAuth) (t : String) (ht : p.token = some t)
    (hne : t ≠ "") (ha : p.isAuthenticated = false) :
    (rehydrate current p).isAuthenticated = true := by
  have hie : t.isEmpty = false := by
    cases hie : t.isEmpty
    · rfl
    · exact absurd ((String.isEmpty_iff t).mp hie) hne
  have hcond : (strTruthy p.token && !p.isAuthenticated) = true := by
    rw [ht, ha]
    simp [strTruthy, hie]
  simp only [rehydrate]
  rw [if_pos hcond]

/-- Witness for C5 at the claim's own example record. -/
theorem rehydrate_repairs_nonempty_token_witness :
    (rehydrate initialState ⟨some "t", none, false⟩).isAuthenticated
        = true :=
  rehydrate_repairs_nonempty_token initialState ⟨some "t", none, false⟩
    "t" rfl (by decide) rfl

end WayForge

namespace WayForge

/-- Helper: a string that is not the empty string has isEmpty = false. -/
theorem isEmpty_false_of_ne (t : String) (h : t ≠ "") :
    t.isEmpty = false := by
  cases hie : t.isEmpty
  · rfl
  · exact absurd ((String.isEmpty_iff t).mp hie) h

/-- Helper: the empty string has isEmpty = true. -/
theorem empty_string_isEmpty : "".isEmpty = true := by
  decide

/-- Counterexample for C6: a state whose token is the empty string has a
present (non-absent) token, yet getAuthHeader returns absent rather than
the string "Bearer " concatenated with the token, because the source
tests the token with JS truthiness. -/
theorem getAuthHeader_empty_token_cex :
    ({ initialState with token := some "" } : AuthState).token.isSome
        = true ∧
    getAuthHeader { initialState with token := some "" } = none ∧
    getAuthHeader { initialState with token := some "" }
        ≠ some ("Bearer " ++ "") := by
  decide

/-- Claim C6 (amended): getAuthHeader is a pure derivation that returns
absent when the token is absent or the empty string, and exactly
"Bearer " concatenated with the token when the token is present and
non-empty. -/
theorem getAuthHeader_spec (s : AuthState) :
    (s.token = none → getAuthHeader s = none) ∧
    (s.token = some "" → getAuthHeader s = none) ∧
    (∀ t, s.token = some t → t ≠ "" →
        getAuthHeader s = some ("Bearer " ++ t)) := by
  refine ⟨?_, ?_, ?_⟩
  · intro h
    simp [getAuthHeader, h]
  · intro h
    simp [getAuthHeader, h, empty_string_isEmpty]
  · intro t h hne
    simp [getAuthHeader, h, isEmpty_false_of_ne t hne]

/-- Witness for C6 at a concrete non-empty token. -/
theorem getAuthHeader_spec_witness :
    getAuthHeader { initialState with token := some "tok" }
        = some ("Bearer " ++ "tok") :=
  (getAuthHeader_spec _).2.2 "tok" rfl (by decide)

/-- Counterexample for C7: a user whose name is the (present) empty
string yields the email local part, not the name; and a user whose email
local part is empty yields the fallback literal, not that local part.
Both contradict the claim as stated (JS truthiness skips falsy empty
strings). -/
theorem userDisplayName_cex :
    userDisplayName
        { initialState with
          user := some ⟨"1", "ann@x.com", some "", none, none⟩ } = "ann" ∧
    userDisplayName
        { initialState with
          user := some ⟨"2", "@x.com", none, none, none⟩ } = "User" := by
  decide

/-- Claim C7 (amended): userDisplayName returns user.name when present
and non-empty; else the local part of user.email before the first
'@' character when that local part is non-empty; else the fixed fallback
literal "User" (also when user is absent).  In particular a user with
name "Ann" yields "Ann", a user with email "ann@x.com" and no name
yields "ann", and an absent user yields "User". -/
theorem userDisplayName_spec (s : AuthState) :
    (s.user = none → userDisplayName s = "User") ∧
    (∀ u n, s.user = some u → u.name = some n → n ≠ "" →
        userDisplayName s = n) ∧
    (∀ u, s.user = some u → (u.name = none ∨ u.name = some "") →
        emailLocalPart u.email ≠ "" →
        userDisplayName s = emailLocalPart u.email) ∧
    (∀ u, s.user = some u → (u.name = none ∨ u.name = some "") →
        emailLocalPart u.email = "" →
        userDisplayName s = "User") := by
  refine ⟨?_, ?_, ?_, ?_⟩
  · intro h
    simp [userDisplayName, h]
  · intro u n hu hn hne
    simp [userDisplayName, hu, hn, isEmpty_false_of_ne n hne]
  · intro u hu hname hlp
    have hie := isEmpty_false_of_ne _ hlp
    rcases hname with h | h <;>
      simp [userDisplayName, hu, h, hie, empty_string_isEmpty]
  · intro u hu hname hlp
    have hie : (emailLocalPart u.email).isEmpty = true :=
      (String.isEmpty_iff (emailLocalPart u.email)).mpr hlp
    rcases hname with h | h <;>
      simp [userDisplayName, hu, h, hie, empty_string_isEmpty]

/-- Witness for C7 at the claim's own examples: a user named "Ann", and
a user with email "ann@x.com" and no name. -/
theorem userDisplayName_spec_witness :
    userDisplayName
        { initialState with
          user := some ⟨"1", "ann@x.com", some "Ann", none, none⟩ }
        = "Ann" ∧
    userDisplayName
        { initialState with
          user := some ⟨"1", "ann@x.com", none, none, none⟩ }
        = "ann" :=
  ⟨(userDisplayName_spec _).2.1 ⟨"1", "ann@x.com", some "Ann", none, none⟩
      "Ann" rfl rfl (by decide),
   by
     have h := (userDisplayName_spec
       { initialState with
         user := some ⟨"1", "ann@x.com", none, none, none⟩ }).2.2.1
       ⟨"1", "ann@x.com", none, none, none⟩ rfl (Or.inl rfl) (by decide)
     simpa using h⟩

/-- Claim C8: for every message value (including absent) and every state,
setError stores the message in error and forces isLoading to false in
the same update. -/
theorem setError_forces_loading_false (s : AuthState) (e : Option String) :
    (setError s e).error = e ∧ (setError s e).isLoading = false :=
  ⟨rfl, rfl⟩

/-- Claim C9: for every prior state, clearAuth yields the fully-empty
session (token absent, user absent, isAuthenticated false, isLoading
false, error absent) in one update, and clearAuth is idempotent. -/
theorem clearAuth_empty_idempotent (s : AuthState) :
    (clearAuth s).token = none ∧
    (clearAuth s).user = none ∧
    (clearAuth s).isAuthenticated = false ∧
    (clearAuth s).isLoading = false ∧
    (clearAuth s).error = none ∧
    clearAuth (clearAuth s) = clearAuth s :=
  ⟨rfl, rfl, rfl, rfl, rfl, rfl⟩

/-- Claim C10: setUser changes only the user field and setLoading changes
only the isLoading field; each leaves the other four fields exactly as
they were. -/
theorem setUser_setLoading_frame (s : AuthState) (u : User) (b : Bool) :
    (setUser s u).user = some u ∧
    (setUser s u).token = s.token ∧
    (setUser s u).isAuthenticated = s.isAuthenticated ∧
    (setUser s u).isLoading = s.isLoading ∧
    (setUser s u).error = s.error ∧
    (setLoading s b).isLoading = b ∧
    (setLoading s b).token = s.token ∧
    (setLoading s b).user = s.user ∧
    (setLoading s b).isAuthenticated = s.isAuthenticated ∧
    (setLoading s b).error = s.error :=
  ⟨rfl, rfl, rfl, rfl, rfl, rfl, rfl, rfl, rfl, rfl⟩

end WayForge
